import Mathlib

/-!
Verification development for the KNIME-to-SQL translation core
(KNIMEViewer.jsx, convertRowFilterNodeToSQL.js, convertGroupByNodeToSQL.js,
convertSorterNodeToSQL.js, convertConcatenateNodeToSQL.js).

The JavaScript sources work on the xml-js "compact" representation of KNIME
settings documents.  We embed that representation shallowly:
a config element is a node with a key, an optional list of `entry` children
(attribute records) and an optional list of nested `config` children; absence
of the `entry`/`config` property (JS `undefined`) is `Option.none`, a single
object or an array are both a `List`.  Scalar results of the accessor
`getEntryValue` are JS `string | boolean | null`, embedded as `EVal`.
Translator-level JavaScript runtime faults (`TypeError`s on e.g.
`value.replace` when `value` is a boolean) are embedded as `Except.error` /
`Option.none` results of the translator.
-/

namespace KnimeSQL

/-- An xml-js `entry` element: `_attributes.key`, optional `_attributes.type`
and optional `_attributes.value`. -/
structure Entry where
  key : String
  type : Option String := none
  value : Option String := none
deriving DecidableEq

/-- Result of `getEntryValue`: JS `string | boolean | null`. -/
inductive EVal where
  | str (v : String)
  | bool (v : Bool)
  | null
deriving DecidableEq

/-- An xml-js compact `config` element: key attribute, optional `entry`
children and optional nested `config` children (absent property = `none`,
single object or array = list). -/
inductive CNode where
  | mk (key : String) (entry : Option (List Entry)) (config : Option (List CNode))

def CNode.key : CNode → String
  | .mk k _ _ => k

def CNode.entry : CNode → Option (List Entry)
  | .mk _ e _ => e

def CNode.config : CNode → Option (List CNode)
  | .mk _ _ c => c

/-- `getEntryValue(entryProp, key)` from src/common/getEntryValue.js:
linear search over the entry list for a matching key; `xboolean`-typed
entries parse to a boolean, otherwise the raw value string is returned
with `|| null` turning the empty string into null. -/
def getEntryValue (entryProp : Option (List Entry)) (key : String) : EVal :=
  match entryProp with
  | none => .null
  | some entries =>
    match entries.find? (fun e => e.key == key) with
    | none => .null
    | some e =>
      if e.type = some "xboolean" then .bool (e.value = some "true")
      else
        match e.value with
        | some v => if v = "" then .null else .str v
        | none => .null

/-- `findConfigByKey(config, key)` from src/common/findConfigByKey.js applied
to `config` children. -/
def findConfigByKey (config : Option (List CNode)) (key : String) : Option CNode :=
  match config with
  | none => none
  | some nodes => nodes.find? (fun n => n.key == key)

/-- `findConfigByKey` applied (duck-typed in JS) to an `entry` list, as in
`findConfigByKey(predConfig.entry, "operator")`. -/
def findEntryByKey (entryProp : Option (List Entry)) (key : String) : Option Entry :=
  match entryProp with
  | none => none
  | some entries => entries.find? (fun e => e.key == key)

/-- JS truthiness of a `getEntryValue` result. -/
def jsFalsy : EVal → Bool
  | .null => true
  | .bool b => !b
  | .str s => s == ""

/-- JS template-literal interpolation of a `getEntryValue` result. -/
def evToString : EVal → String
  | .str v => v
  | .bool true => "true"
  | .bool false => "false"
  | .null => "null"

/-- `${factory || "N/A"}` (Row Filter factory mismatch message). -/
def evOrNA (factory : EVal) : String :=
  if jsFalsy factory then "N/A" else evToString factory

/-- `factory ? \x60"${factory}"\x60 : "N/A"` (GroupBy/Sorter/Concatenate
factory mismatch message). -/
def factoryInfoOf (factory : EVal) : String :=
  if jsFalsy factory then "N/A" else "\"" ++ evToString factory ++ "\""

/-- Using a `getEntryValue` result where JS calls a string method
(`.replace` etc.): a string succeeds, a boolean raises a `TypeError`. -/
def asString : EVal → Except Unit String
  | .str s => .ok s
  | _ => .error ()

/-! ### Character / string utilities mirroring the JS string operations -/

/-- `s.replace(/t/g, r)` where the pattern is one literal character. -/
def jsRepC (t : Char) (r : List Char) : List Char → List Char
  | [] => []
  | c :: cs => (if c = t then r else [c]) ++ jsRepC t r cs

/-- The single-quote character (code 39), kept out of literals. -/
def sqc : Char := Char.ofNat 39

/-- One single-quote as a string. -/
def sqS : String := String.mk [sqc]

/-- `s.replace(/'/g, "''")`. -/
def sqEscape (s : String) : String := String.mk (jsRepC sqc [sqc, sqc] s.data)

/-- `\x60"${s.replace(/"/g, '""')}"\x60` — SQL identifier quoting. -/
def quoteIdent (s : String) : String :=
  "\"" ++ String.mk (jsRepC '"' ['"', '"'] s.data) ++ "\""

/-- `Array.prototype.join(sep)`. -/
def joinSep (sep : String) : List String → String
  | [] => ""
  | [x] => x
  | x :: y :: xs => x ++ sep ++ joinSep sep (y :: xs)

/-- `hay.includes(pat)` on strings (substring containment). -/
def charsContains (hay pat : List Char) : Bool :=
  match hay with
  | [] => pat.isEmpty
  | _ :: t => pat.isPrefixOf hay || charsContains t pat

/-- JS whitespace for `String.prototype.trim` / numeric conversion. -/
def isJsWhitespace (c : Char) : Bool :=
  c = ' ' || c = '\t' || c = '\n' || c = '\r' || c.toNat = 11 || c.toNat = 12 || c.toNat = 160

def trimChars (l : List Char) : List Char :=
  ((l.dropWhile isJsWhitespace).reverse.dropWhile isJsWhitespace).reverse

/-- `s.trim()`. -/
def jsTrim (s : String) : String := String.mk (trimChars s.data)

def isDigits (l : List Char) : Bool := !l.isEmpty && l.all Char.isDigit

def isSignedDigits (l : List Char) : Bool :=
  match l with
  | [] => false
  | c :: t => if c = '+' || c = '-' then isDigits t else isDigits (c :: t)

/-- Split a char list at the first character satisfying `p` (the separator is
dropped); `none` in the second component when no separator occurs. -/
def breakFirst (p : Char → Bool) : List Char → (List Char × Option (List Char))
  | [] => ([], none)
  | c :: cs =>
    if p c then ([], some cs)
    else
      let r := breakFirst p cs
      (c :: r.1, r.2)

def isMantissa (l : List Char) : Bool :=
  let r := breakFirst (fun c => c = '.') l
  match r.2 with
  | none => isDigits r.1
  | some b => (isDigits r.1 && (b.isEmpty || isDigits b)) || (r.1.isEmpty && isDigits b)

def isDecimalCore (l : List Char) : Bool :=
  let r := breakFirst (fun c => c = 'e' || c = 'E') l
  match r.2 with
  | none => isMantissa r.1
  | some ex => isMantissa r.1 && isSignedDigits ex

def isHexDigitChar (c : Char) : Bool :=
  c.isDigit || (97 ≤ c.toNat && c.toNat ≤ 102) || (65 ≤ c.toNat && c.toNat ≤ 70)

def isNonDecimalInt (l : List Char) : Bool :=
  match l with
  | '0' :: x :: rest =>
    if x = 'x' || x = 'X' then !rest.isEmpty && rest.all isHexDigitChar
    else if x = 'o' || x = 'O' then !rest.isEmpty && rest.all (fun c => 48 ≤ c.toNat && c.toNat ≤ 55)
    else if x = 'b' || x = 'B' then !rest.isEmpty && rest.all (fun c => c = '0' || c = '1')
    else false
  | _ => false

/-- `isNaN(Number(s))` for a string `s` (ToNumber semantics: trimmed empty
string is 0, signed decimal / Infinity, unsigned hex/octal/binary). -/
def jsNumberNaN (s : String) : Bool :=
  let t := trimChars s.data
  if t.isEmpty then false
  else
    let signless :=
      match t with
      | c :: r => if c = '+' || c = '-' then r else c :: r
      | [] => []
    !(signless = "Infinity".data || isDecimalCore signless || isNonDecimalInt t)

/-- `isNaN(Number(value))` on a `getEntryValue` result (`Number(bool)` is
0 or 1, never NaN; null never reaches this point but `Number(null)` is 0). -/
def evNumberNaN : EVal → Bool
  | .bool _ => false
  | .null => false
  | .str s => jsNumberNaN s

/-- `isNaN(parseInt(s))`. -/
def jsParseIntNaN (s : String) : Bool :=
  let t := s.data.dropWhile isJsWhitespace
  let core :=
    match t with
    | c :: r => if c = '+' || c = '-' then r else c :: r
    | [] => []
  match core with
  | c :: _ => !c.isDigit
  | [] => true

def digitsToNat (l : List Char) : Nat := l.foldl (fun n c => n * 10 + (c.toNat - 48)) 0

/-- `s.replace(/pat/g, repl)` for a multi-character literal pattern
(used for the `$$col$$` placeholder).  `skip` counts pattern characters
still to be consumed after a match. -/
def replaceSubSkip (pat repl : List Char) : Nat → List Char → List Char
  | _, [] => []
  | Nat.succ k, _ :: t => replaceSubSkip pat repl k t
  | 0, c :: t =>
    if !pat.isEmpty && pat.isPrefixOf (c :: t) then
      repl ++ replaceSubSkip pat repl (pat.length - 1) t
    else
      c :: replaceSubSkip pat repl 0 t

def replaceSubChars (pat repl l : List Char) : List Char :=
  replaceSubSkip pat repl 0 l

/-- JS `Set` insertion-order deduplication (`[...new Set(l)]`). -/
def jsDedupGo (seen : List String) : List String → List String
  | [] => []
  | x :: xs => if x ∈ seen then jsDedupGo seen xs else x :: jsDedupGo (x :: seen) xs

def jsDedup (l : List String) : List String := jsDedupGo [] l

/-- Default `Array.prototype.sort()` comparison: lexicographic by code unit.
(Embedded as lexicographic by code point; they agree on the BMP.) -/
def lexLe : List Char → List Char → Bool
  | [], _ => true
  | _ :: _, [] => false
  | a :: as, b :: bs => if a.toNat = b.toNat then lexLe as bs else decide (a.toNat < b.toNat)

/-- The sort order used by `finalOutputColumns.sort()`. -/
def strLe (a b : String) : Prop := lexLe a.data b.data = true

instance : DecidableRel strLe := fun a b => by
  unfold strLe; infer_instance

def insertSorted (x : String) : List String → List String
  | [] => [x]
  | y :: ys => if lexLe x.data y.data then x :: y :: ys else y :: insertSorted x ys

/-- `l.sort()` on an array of strings (insertion sort; deterministic result
for the total order `strLe`). -/
def sortStrings : List String → List String
  | [] => []
  | x :: xs => insertSorted x (sortStrings xs)

/-- Minimal `JSON.stringify` for strings (escapes backslash and quote; the
inputs in scope contain no control characters). -/
def jsonStr (s : String) : String :=
  "\"" ++ String.mk (jsRepC '"' ['\\', '"'] (jsRepC '\\' ['\\', '\\'] s.data)) ++ "\""

/-! ### Row Filter translator (src/functions/convertRowFilterNodeToSQL.js) -/

def ROW_FILTER_FACTORY : String :=
  "org.knime.base.node.preproc.filter.row3.RowFilterNodeFactory"

/-- `mapKnimeOperatorToSQL` — note the `default` case returns `"="`. -/
def mapKnimeOperatorToSQL (knimeOperator : String) : String :=
  if knimeOperator = "EQ" then "="
  else if knimeOperator = "NEQ" then "!="
  else if knimeOperator = "LT" then "<"
  else if knimeOperator = "LE" then "<="
  else if knimeOperator = "GT" then ">"
  else if knimeOperator = "GE" then ">="
  else if knimeOperator = "LIKE" then "LIKE"
  else if knimeOperator = "REGEX" then "REGEXP"
  else if knimeOperator = "IS_MISSING" then "IS NULL"
  else if knimeOperator = "IS_NOT_MISSING" then "IS NOT NULL"
  else "="

/-- `translateKnimeWildcardToSQL` on the underlying characters:
pre-escape literal `%` and `_`, then translate `*`→`%` and `?`→`_`. -/
def translateKnimeWildcardToSQLChars (l : List Char) : List Char :=
  jsRepC '?' ['_'] (jsRepC '*' ['%'] (jsRepC '_' ['\\', '_'] (jsRepC '%' ['\\', '%'] l)))

/-- `value.replace(/\*/g,"%").replace(/\?/g,"_")` — the wildcard-only
translation the ESCAPE decision compares against. -/
def plainWildcardChars (l : List Char) : List Char :=
  jsRepC '?' ['_'] (jsRepC '*' ['%'] l)

/-- `translateKnimeWildcardToSQL(value)` (non-string input yields `""`). -/
def translateKnimeWildcardToSQL : EVal → String
  | .str s => String.mk (translateKnimeWildcardToSQLChars s.data)
  | _ => ""

/-- The `ESCAPE` clause appended to a LIKE condition when the translated
pattern differs from the wildcard-only translation. -/
def likeEscapeSuffix (v : String) : String :=
  if String.mk (translateKnimeWildcardToSQLChars v.data) ≠ String.mk (plainWildcardChars v.data) then
    " ESCAPE " ++ sqS ++ "\\" ++ sqS
  else ""

def cellClassStringType : EVal → Except Unit Bool
  | .str v => .ok (charsContains v.data "StringCell".data)
  | .bool _ => .error ()
  | .null => .ok false

/-- Building `sqlValue` for a value-requiring predicate. -/
def rowFilterSqlValue (sqlOperator : String) (needsQuotes : Bool) (value : EVal) :
    Except Unit String :=
  if sqlOperator = "LIKE" then
    .ok (sqS ++ sqEscape (translateKnimeWildcardToSQL value) ++ sqS)
  else if sqlOperator = "REGEXP" then
    match asString value with
    | .error e => .error e
    | .ok v => .ok (sqS ++ sqEscape v ++ sqS)
  else if needsQuotes then
    match asString value with
    | .error e => .error e
    | .ok v => .ok (sqS ++ sqEscape v ++ sqS)
  else .ok (evToString value)

/-- The part of a predicate translation after column name, operator and
`values` configuration have been resolved. -/
def processPredicateWithValue (columnName : EVal) (knimeOperator : String)
    (vConf : List CNode) : Except Unit (Option String) :=
  let sqlOperator := mapKnimeOperatorToSQL knimeOperator
  if sqlOperator = "IS NULL" ∨ sqlOperator = "IS NOT NULL" then
    match asString columnName with
    | .error e => .error e
    | .ok col => .ok (some (quoteIdent col ++ " " ++ sqlOperator))
  else
    match findConfigByKey (some vConf) "0" with
    | none => .ok none
    | some singleValueConfig =>
      match singleValueConfig.entry, singleValueConfig.config with
      | some svEntry, some svConf =>
        let value := getEntryValue (some svEntry) "value"
        let tiEntry := (findConfigByKey (some svConf) "typeIdentifier").bind CNode.entry
        let isNull := getEntryValue tiEntry "is_null"
        let cellClass := getEntryValue tiEntry "cell_class"
        if isNull = EVal.bool true then
          match asString columnName with
          | .error e => .error e
          | .ok col => .ok (some (quoteIdent col ++ " IS NULL"))
        else if value = EVal.null then .ok none
        else
          match asString columnName with
          | .error e => .error e
          | .ok col =>
            match cellClassStringType cellClass with
            | .error e => .error e
            | .ok isStringType =>
              let isNumeric := !(evNumberNaN value)
              let needsQuotes := isStringType || !isNumeric
              match rowFilterSqlValue sqlOperator needsQuotes value with
              | .error e => .error e
              | .ok sqlValue =>
                let caseSensitive :=
                  getEntryValue ((findConfigByKey (some svConf) "stringCaseMatching").bind CNode.entry)
                      "caseMatching" == EVal.str "CASESENSITIVE"
                let condition :=
                  if needsQuotes && !caseSensitive &&
                      (sqlOperator == "=" || sqlOperator == "!=" ||
                       sqlOperator == "LIKE" || sqlOperator == "REGEXP") then
                    "LOWER(" ++ quoteIdent col ++ ") " ++ sqlOperator ++ " LOWER(" ++ sqlValue ++ ")"
                  else
                    quoteIdent col ++ " " ++ sqlOperator ++ " " ++ sqlValue
                if sqlOperator = "LIKE" then
                  match asString value with
                  | .error e => .error e
                  | .ok v => .ok (some (condition ++ likeEscapeSuffix v))
                else .ok (some condition)
      | _, _ => .ok none

/-- One iteration of the predicate `.map` in `convertRowFilterNodeToSQL`:
`ok none` is a dropped predicate, `error` a raised `TypeError`. -/
def processPredicate (predConfig : CNode) : Except Unit (Option String) :=
  match predConfig.config with
  | none => .ok none
  | some pconf =>
    match findConfigByKey (some pconf) "column", findEntryByKey predConfig.entry "operator",
        findConfigByKey (some pconf) "predicateValues" with
    | some columnNode, some operatorEntry, some predicateValuesNode =>
      match predicateValuesNode.config with
      | none => .ok none
      | some pvConf =>
        let columnName := getEntryValue columnNode.entry "selected"
        match findConfigByKey (some pvConf) "values" with
        | none => .ok none
        | some valuesNode =>
          match valuesNode.config with
          | none => .ok none
          | some vConf =>
            if jsFalsy columnName then .ok none
            else
              match operatorEntry.value with
              | none => .ok none
              | some knimeOperator =>
                if knimeOperator = "" then .ok none
                else processPredicateWithValue columnName knimeOperator vConf
    | _, _, _ => .ok none

/-- The `.map(...).filter(c => c !== null)` over the predicate list. -/
def processPredicates : List CNode → Except Unit (List String)
  | [] => .ok []
  | p :: ps =>
    match processPredicate p with
    | .error e => .error e
    | .ok c =>
      match processPredicates ps with
      | .error e => .error e
      | .ok cs =>
        match c with
        | some s => .ok (s :: cs)
        | none => .ok cs

def rowFilterWarnSuffix : String :=
  "; -- Warning: No valid filter conditions generated or applied"

def rowFilterParamsError : String :=
  "Error: Essential filtering parameters (outputMode, matchCriteria, predicates) not found."

/-- `convertRowFilterNodeToSQL(nodeConfig, previousNodeName)`; a `none`
result is a JS `TypeError` escaping the function. -/
def convertRowFilterNodeToSQL (nodeConfig : CNode) (previousNodeName : String) :
    Option String :=
  let factory := getEntryValue nodeConfig.entry "factory"
  if factory ≠ EVal.str ROW_FILTER_FACTORY then
    some ("Error: Expected Row Filter node factory (" ++ ROW_FILTER_FACTORY ++ "), but got "
      ++ evOrNA factory ++ ".")
  else
    match findConfigByKey nodeConfig.config "model" with
    | none => some "Error: Model configuration not found."
    | some modelNode =>
      match modelNode.config with
      | none => some "Error: Model configuration not found."
      | some mConf =>
        let outputMode := getEntryValue modelNode.entry "outputMode"
        let matchCriteria := getEntryValue modelNode.entry "matchCriteria"
        match findConfigByKey (some mConf) "predicates" with
        | none => some rowFilterParamsError
        | some predicatesNode =>
          if jsFalsy outputMode || jsFalsy matchCriteria then some rowFilterParamsError
          else
            match predicatesNode.config with
            | none => some rowFilterParamsError
            | some predicateConfigs =>
              match processPredicates predicateConfigs with
              | .error _ => none
              | .ok conditions =>
                if conditions.isEmpty then
                  some ("SELECT * FROM " ++ quoteIdent previousNodeName ++ rowFilterWarnSuffix)
                else
                  let combinedConditions :=
                    joinSep (" " ++ evToString matchCriteria ++ " ") conditions
                  let whereClause :=
                    if outputMode = EVal.str "NON_MATCHING" then
                      "NOT (" ++ combinedConditions ++ ")"
                    else combinedConditions
                  some ("SELECT * FROM " ++ quoteIdent previousNodeName ++ " WHERE "
                    ++ whereClause ++ ";")

/-! ### GroupBy translator (src/functions/convertGroupByNodeToSQL.js) -/

def GROUPBY_FACTORY : String := "org.knime.base.node.preproc.groupby.GroupByNodeFactory"

/-- `mapKnimeAggregationToSQL`. -/
def mapKnimeAggregationToSQL (knimeMethod : String) : Option String :=
  if knimeMethod = "Sum" then some "SUM"
  else if knimeMethod = "Count" then some "COUNT"
  else if knimeMethod = "Mean" ∨ knimeMethod = "Average" then some "AVG"
  else if knimeMethod = "Minimum" then some "MIN"
  else if knimeMethod = "Maximum" then some "MAX"
  else if knimeMethod = "StandardDeviation" then some "STDDEV_SAMP"
  else if knimeMethod = "Variance" then some "VAR_SAMP"
  else if knimeMethod = "Median" then none
  else if knimeMethod = "Concatenate" ∨ knimeMethod = "List" then some "LISTAGG"
  else if knimeMethod = "First" then some "MIN"
  else if knimeMethod = "Last" then some "MAX"
  else if knimeMethod = "Unique count" then some "COUNT(DISTINCT $$col$$)"
  else if knimeMethod = "Missing value count" then
    some "SUM(CASE WHEN $$col$$ IS NULL THEN 1 ELSE 0 END)"
  else none

def parseNatKey (s : String) : Option Nat :=
  if !s.data.isEmpty && s.data.all Char.isDigit then some (digitsToNat s.data) else none

def insertByIdx (x : Nat × String) : List (Nat × String) → List (Nat × String)
  | [] => [x]
  | y :: ys => if x.1 ≤ y.1 then x :: y :: ys else y :: insertByIdx x ys

def sortByIdx : List (Nat × String) → List (Nat × String)
  | [] => []
  | x :: xs => insertByIdx x (sortByIdx xs)

/-- Modelled from the spec: `getArrayValuesFromConfig`
(src/common/getArrayValuesFromConfig.js is not among the retrieved sources;
only its call sites are).  Spec §4.1 `getIndexedList`: "reads a Node whose
children are keyed by sequential string integers, returns them sorted
numerically as scalars", and accessors "fail closed: absence is not
configured, never an error". -/
def getArrayValuesFromConfig (node : Option CNode) : List String :=
  match node with
  | none => []
  | some n =>
    match n.entry with
    | none => []
    | some entries =>
      let indexed := entries.filterMap
        (fun e => (parseNatKey e.key).map (fun i => (i, e.value.getD "")))
      (sortByIdx indexed).map (fun p => p.2)

/-- `s.replace(/[^a-zA-Z0-9_]/g, "_")` used for alias cleanup. -/
def sanitizeAlias (s : String) : String :=
  String.mk (s.data.map (fun c => if c.isAlphanum || c = '_' then c else '_'))

/-- `valueDelimiter = getEntryValue(...) || ", "`. -/
def groupByValueDelimiter (modelNode : CNode) : EVal :=
  match getEntryValue modelNode.entry "valueDelimiter" with
  | .null => .str ", "
  | .bool false => .str ", "
  | x => x

/-- `columnNamePolicy = getEntryValue(...) || "Aggregation method (column name)"`. -/
def groupByColumnNamePolicy (modelNode : CNode) : EVal :=
  match getEntryValue modelNode.entry "columnNamePolicy" with
  | .null => .str "Aggregation method (column name)"
  | .bool false => .str "Aggregation method (column name)"
  | x => x

/-- One loop iteration of the aggregation builder, once
`mapKnimeAggregationToSQL` returned a template: builds
`sqlFunctionCall AS quotedAlias`.  An `xboolean` `valueDelimiter` raises a
`TypeError` at `delimiter.replace` in the List/Concatenate branch. -/
def buildAggregation (valueDelimiter columnNamePolicy : EVal)
    (colName knimeMethod sqlFunctionTemplate : String) : Except Unit String :=
  let quotedColName := quoteIdent colName
  let callRes : Except Unit String :=
    if charsContains sqlFunctionTemplate.data "$$col$$".data then
      .ok (String.mk (replaceSubChars "$$col$$".data quotedColName.data sqlFunctionTemplate.data))
    else if knimeMethod = "Count" then .ok ("COUNT(" ++ quotedColName ++ ")")
    else if knimeMethod = "List" ∨ knimeMethod = "Concatenate" then
      match asString valueDelimiter with
      | .error e => .error e
      | .ok d =>
        .ok (sqlFunctionTemplate ++ "(" ++ quotedColName ++ ", " ++ sqS ++ sqEscape d ++ sqS ++ ")")
    else .ok (sqlFunctionTemplate ++ "(" ++ quotedColName ++ ")")
  match callRes with
  | .error e => .error e
  | .ok sqlFunctionCall =>
    let cleanColName := sanitizeAlias colName
    let cleanMethod := sanitizeAlias knimeMethod
    let aliasName :=  -- `alias` in the source; renamed (Lean keyword)
      if columnNamePolicy = EVal.str "Aggregation method (column name)" then
        cleanMethod ++ "_" ++ cleanColName
      else if columnNamePolicy = EVal.str "Column name (aggregation method)" then
        cleanColName ++ "_" ++ cleanMethod
      else cleanColName ++ "_agg"
    .ok (sqlFunctionCall ++ " AS " ++ quoteIdent aliasName)

/-- The aggregation loop over the zipped (column, method) pairs; unmapped
methods are dropped. -/
def buildAggregations (valueDelimiter columnNamePolicy : EVal) :
    List (String × String) → Except Unit (List String)
  | [] => .ok []
  | (colName, knimeMethod) :: rest =>
    match mapKnimeAggregationToSQL knimeMethod with
    | none => buildAggregations valueDelimiter columnNamePolicy rest
    | some tmpl =>
      match buildAggregation valueDelimiter columnNamePolicy colName knimeMethod tmpl with
      | .error e => .error e
      | .ok item =>
        match buildAggregations valueDelimiter columnNamePolicy rest with
        | .error e => .error e
        | .ok others => .ok (item :: others)

/-- Grouping columns: `model.grouByColumns.InclList` (sic). -/
def groupByGroupingColumns (modelNode : CNode) : List String :=
  getArrayValuesFromConfig
    (findConfigByKey ((findConfigByKey modelNode.config "grouByColumns").bind CNode.config)
      "InclList")

/-- The positionally zipped aggregation (column, method) pairs
(`Math.min` of the lengths = `List.zip`). -/
def groupByAggregationPairs (modelNode : CNode) : List (String × String) :=
  let aggColumnNode := findConfigByKey modelNode.config "aggregationColumn"
  let names :=
    getArrayValuesFromConfig (findConfigByKey (aggColumnNode.bind CNode.config) "columnNames")
  let methods :=
    getArrayValuesFromConfig
      (findConfigByKey (aggColumnNode.bind CNode.config) "aggregationMethod")
  names.zip methods

/-- The successfully mapped aggregation select items of a GroupBy model. -/
def groupByAggregations (modelNode : CNode) : Except Unit (List String) :=
  buildAggregations (groupByValueDelimiter modelNode) (groupByColumnNamePolicy modelNode)
    (groupByAggregationPairs modelNode)

def groupBySelectError : String :=
  "Error: Cannot generate SELECT clause. No grouping or aggregation columns specified/successful."

/-- `convertGroupByNodeToSQL(nodeConfig, previousNodeName)`; a `none` result
is a JS `TypeError` escaping the function.  (The source's
`if (groupByClause)` truthiness test is equivalent to the grouping-column
list being non-empty, which is how it is written here.) -/
def convertGroupByNodeToSQL (nodeConfig : CNode)
    (previousNodeName : String := "input_table") : Option String :=
  let factory := getEntryValue nodeConfig.entry "factory"
  if factory ≠ EVal.str GROUPBY_FACTORY then
    some ("Error: Expected GroupBy node factory (" ++ GROUPBY_FACTORY ++ "), but got "
      ++ factoryInfoOf factory ++ ".")
  else
    match findConfigByKey nodeConfig.config "model" with
    | none => some "Error: Model configuration not found or invalid."
    | some modelNode =>
      if modelNode.config.isNone || modelNode.entry.isNone then
        some "Error: Model configuration not found or invalid."
      else
        let groupingColumns := groupByGroupingColumns modelNode
        let quotedGroupingColumns := groupingColumns.map quoteIdent
        match groupByAggregations modelNode with
        | .error _ => none
        | .ok aggregations =>
          let quotedPreviousNodeName := quoteIdent previousNodeName
          let selectParts := quotedGroupingColumns ++ aggregations
          if selectParts.isEmpty then some groupBySelectError
          else
            let selectClause := "SELECT\n  " ++ joinSep ",\n  " selectParts
            let fromClause := "FROM " ++ quotedPreviousNodeName
            if !groupingColumns.isEmpty && aggregations.isEmpty then
              some ("SELECT DISTINCT\n  " ++ joinSep ",\n  " quotedGroupingColumns ++ "\n"
                ++ fromClause ++ ";")
            else
              let parts :=
                if quotedGroupingColumns.isEmpty then [selectClause, fromClause]
                else
                  [selectClause, fromClause,
                    "GROUP BY\n  " ++ joinSep ",\n  " quotedGroupingColumns]
              some (joinSep "\n" parts ++ ";")

/-! ### Sorter translator (src/functions/convertSorterNodeToSQL.js) -/

def SORTER_FACTORY : String := "org.knime.base.node.preproc.sorter.SorterNodeFactory"

def sorterWarnNoCriteria : String := "; -- Warning: No sorting criteria found"

def sorterWarnNoneValid : String := "; -- Warning: No valid sorting criteria processed"

def sorterAlphaComment (columnName : String) : String :=
  " -- Note: Alphanumeric string comparison requested for " ++ columnName ++
    ". Standard ORDER BY used; verify behavior with DB."

/-- The global null-ordering flag: `missingToEnd === true` gives
`NULLS LAST`, anything else `NULLS FIRST`. -/
def sorterNullsOrder (modelNode : CNode) : String :=
  if getEntryValue modelNode.entry "missingToEnd" = EVal.bool true then "NULLS LAST"
  else "NULLS FIRST"

/-- One loop iteration over the sorting criteria: `ok none` is a skipped
criterion, `error` a `TypeError` (boolean `selected` column entry). -/
def sorterCriterionPart (nullsOrder : String) (criterionConfig : CNode) :
    Except Unit (Option String) :=
  if jsParseIntNaN criterionConfig.key then .ok none
  else
    let columnNode := findConfigByKey criterionConfig.config "column"
    let columnName := getEntryValue (columnNode.bind CNode.entry) "selected"
    let sortingOrder := getEntryValue criterionConfig.entry "sortingOrder"
    let stringComparison := getEntryValue criterionConfig.entry "stringComparison"
    if jsFalsy columnName || jsFalsy sortingOrder then .ok none
    else
      let direction := if sortingOrder = EVal.str "DESCENDING" then "DESC" else "ASC"
      match asString columnName with
      | .error e => .error e
      | .ok col =>
        let comment :=
          if stringComparison = EVal.str "ALPHANUMERIC" then sorterAlphaComment col else ""
        .ok (some (quoteIdent col ++ " " ++ direction ++ " " ++ nullsOrder ++ comment))

/-- The `orderByParts` accumulation over all criteria configs. -/
def sorterOrderByParts (nullsOrder : String) : List CNode → Except Unit (List String)
  | [] => .ok []
  | c :: cs =>
    match sorterCriterionPart nullsOrder c with
    | .error e => .error e
    | .ok part =>
      match sorterOrderByParts nullsOrder cs with
      | .error e => .error e
      | .ok parts =>
        match part with
        | some s => .ok (s :: parts)
        | none => .ok parts

/-- `convertSorterNodeToSQL(nodeConfig, previousNodeName)`; a `none` result
is a JS `TypeError` escaping the function. -/
def convertSorterNodeToSQL (nodeConfig : CNode)
    (previousNodeName : String := "input_table") : Option String :=
  let factory := getEntryValue nodeConfig.entry "factory"
  if factory ≠ EVal.str SORTER_FACTORY then
    some ("Error: Expected Sorter node factory (" ++ SORTER_FACTORY ++ "), but got "
      ++ factoryInfoOf factory ++ ".")
  else
    match findConfigByKey nodeConfig.config "model" with
    | none => some "Error: Model configuration not found or invalid."
    | some modelNode =>
      if modelNode.config.isNone || modelNode.entry.isNone then
        some "Error: Model configuration not found or invalid."
      else
        match findConfigByKey modelNode.config "sortingCriteria" with
        | none =>
          some ("SELECT * FROM " ++ quoteIdent previousNodeName ++ sorterWarnNoCriteria)
        | some sortingCriteriaNode =>
          match sortingCriteriaNode.config with
          | none =>
            some ("SELECT * FROM " ++ quoteIdent previousNodeName ++ sorterWarnNoCriteria)
          | some criteriaConfigs =>
            match sorterOrderByParts (sorterNullsOrder modelNode) criteriaConfigs with
            | .error _ => none
            | .ok orderByParts =>
              if orderByParts.isEmpty then
                some ("SELECT * FROM " ++ quoteIdent previousNodeName ++ sorterWarnNoneValid)
              else
                some ("SELECT *" ++ "\n" ++ ("FROM " ++ quoteIdent previousNodeName) ++ "\n"
                  ++ ("ORDER BY\n  " ++ joinSep ",\n  " orderByParts) ++ ";")

/-! ### Concatenate translator (src/functions/convertConcatenateNodeToSQL.js) -/

def CONCATENATE_FACTORY : String :=
  "org.knime.base.node.preproc.append.row.AppendedRowsNodeFactory"

/-- One predecessor context `{ nodeName, nodes }`. -/
structure PredCtx where
  nodeName : String
  nodes : List String
deriving DecidableEq

def predCtxJson (p : PredCtx) : String :=
  "\x7b\"nodeName\":" ++ jsonStr p.nodeName ++ ",\"nodes\":["
    ++ joinSep "," (p.nodes.map jsonStr) ++ "]\x7d"

def predCtxListJson (ps : List PredCtx) : String :=
  "[" ++ joinSep "," (ps.map predCtxJson) ++ "]"

/-- The per-predecessor validation loop (in the typed embedding only an
empty `nodeName` is falsy). -/
def concatValidate (i : Nat) : List PredCtx → Option String
  | [] => none
  | p :: ps =>
    if p.nodeName = "" then
      some ("Error: Invalid predecessor context at index " ++ toString i
        ++ ". Expected \x7b nodeName: string, nodes: string[] \x7d, got: " ++ predCtxJson p)
    else concatValidate (i + 1) ps

/-- `modelNode?.entry || nodeConfig.entry`. -/
def concatConfigSource (nodeConfig : CNode) : Option (List Entry) :=
  match findConfigByKey nodeConfig.config "model" with
  | some m =>
    match m.entry with
    | some es => some es
    | none => nodeConfig.entry
  | none => nodeConfig.entry

/-- `getEntryValue(configSource, "intersection_of_columns") === true`. -/
def concatIntersectionOfColumns (nodeConfig : CNode) : Bool :=
  getEntryValue (concatConfigSource nodeConfig) "intersection_of_columns" == EVal.bool true

/-- The per-predecessor column sets `new Set(pred.nodes)`. -/
def concatAllSets (preds : List PredCtx) : List (List String) :=
  preds.map (fun p => jsDedup p.nodes)

/-- Intersection mode: start from the first predecessor's column set and
filter through the rest. -/
def concatIntersectionColumns : List (List String) → List String
  | [] => []
  | s0 :: rest => rest.foldl (fun acc s => acc.filter (fun c => decide (c ∈ s))) s0

/-- The final output columns before sorting: set-intersection (fold of
filters from the first set) or set-union (one set accumulating all). -/
def concatColumnsBase (inter : Bool) (sets : List (List String)) : List String :=
  if inter then concatIntersectionColumns sets else jsDedup sets.flatten

/-- `finalOutputColumns` after `.sort()`. -/
def concatFinalColumns (nodeConfig : CNode) (preds : List PredCtx) : List String :=
  sortStrings (concatColumnsBase (concatIntersectionOfColumns nodeConfig) (concatAllSets preds))

/-- One select-list item for a predecessor: qualified column if the
predecessor has it, otherwise `NULL AS <col>`. -/
def concatSelectColumn (pred : PredCtx) (col : String) : String :=
  if decide (col ∈ jsDedup pred.nodes) then
    quoteIdent pred.nodeName ++ "." ++ quoteIdent col
  else "NULL AS " ++ quoteIdent col

/-- One member of `unionParts`. -/
def concatUnionPart (finalOutputColumns : List String) (pred : PredCtx) : String :=
  "SELECT\n    " ++ joinSep ",\n    " (finalOutputColumns.map (concatSelectColumn pred))
    ++ "\n  FROM " ++ quoteIdent pred.nodeName

def concatTypeNote : String :=
  "-- Note: KNIME options " ++ sqS ++ "fail_on_duplicates" ++ sqS ++ " and " ++ sqS
    ++ "append_suffix" ++ sqS
    ++ " for column names are not directly translated. SQL UNION ALL requires columns in SELECT lists to align.\n"

/-- `convertConcatenateNodeToSQL(nodeConfig, predecessorNodeContext)` —
total: every JS execution path returns a string. -/
def convertConcatenateNodeToSQL (nodeConfig : CNode) (predecessorNodeContext : List PredCtx) :
    String :=
  let factory := getEntryValue nodeConfig.entry "factory"
  if factory ≠ EVal.str CONCATENATE_FACTORY then
    "Error: Expected Concatenate node factory (" ++ CONCATENATE_FACTORY ++ "), but got "
      ++ factoryInfoOf factory ++ "."
  else if predecessorNodeContext.length < 2 then
    "Error: Concatenate node requires at least two predecessors, but found "
      ++ toString predecessorNodeContext.length ++ ". Context: "
      ++ predCtxListJson predecessorNodeContext
  else
    match concatValidate 0 predecessorNodeContext with
    | some err => err
    | none =>
      let inter := concatIntersectionOfColumns nodeConfig
      let failOnDuplicates := getEntryValue (concatConfigSource nodeConfig) "fail_on_duplicates"
      let appendSuffix := getEntryValue (concatConfigSource nodeConfig) "append_suffix"
      let sqlComment :=
        "-- Concatenate Node Conversion (using UNION ALL)\n"
          ++ (if inter then "-- Mode: Intersection of columns\n"
              else "-- Mode: Union of columns (default)\n")
          ++ (if failOnDuplicates ≠ EVal.null ∨ appendSuffix ≠ EVal.null then concatTypeNote
              else "")
      let base := concatColumnsBase inter (concatAllSets predecessorNodeContext)
      if inter && base.isEmpty then
        "Error: Intersection of columns resulted in an empty column set."
      else
        let finalOutputColumns := sortStrings base
        if finalOutputColumns.isEmpty then "Error: No columns determined for the output."
        else
          let unionParts := predecessorNodeContext.map (concatUnionPart finalOutputColumns)
          jsTrim (sqlComment ++ joinSep "\nUNION ALL\n" unionParts) ++ ";"

/-! ### Dispatcher and graph builder (src/KNIMEViewer.jsx) -/

namespace Viewer

/-- The viewer-local `getEntryValue(data, key)` (returns `""` instead of
null and has no `xboolean` handling). -/
def getEntryValue (data : CNode) (key : String) : String :=
  match data.entry with
  | none => ""
  | some entries =>
    match entries.find? (fun e => e.key == key) with
    | none => ""
    | some e => e.value.getD ""

def CSV_FACTORY : String :=
  "org.knime.base.node.io.filehandling.csv.reader.CSVTableReaderNodeFactory"

def COLUMN_FILTER_FACTORY : String :=
  "org.knime.base.node.preproc.filter.column.DataColumnSpecFilterNodeFactory"

/-- Modelled from the spec: `convertCSVReaderNodeToSQL`
(src/functions/convertCSVReaderNodeToSQL.js is not among the retrieved
sources).  Spec §4.5: "CSVReader emits a templated projection over a
declared schema"; only its dispatch matters for the claims here. -/
def convertCSVReaderNodeToSQL (nodeConfig : CNode) : String :=
  "SELECT *\nFROM " ++ KnimeSQL.quoteIdent (getEntryValue nodeConfig "name") ++ ";"

/-- Modelled from the spec: `convertColumnFilterNodeToSQL`
(src/functions/convertColumnFilterNodeToSQL.js is not among the retrieved
sources).  Spec §4.5: "ColumnFilter emits a projection over an explicit
include list"; only its dispatch matters for the claims here. -/
def convertColumnFilterNodeToSQL (nodeConfig : CNode) (previousNodeName : String) : String :=
  "SELECT * FROM " ++ KnimeSQL.quoteIdent previousNodeName ++ ";"

def unsupportedNodeMessage : String := "Conversion for this node type is not supported."

/-- `convertSelectedNodeToSQL(nodeConfig, previousNodeName)` — the
dispatcher: exact match on the factory entry, fixed diagnostic otherwise. -/
def convertSelectedNodeToSQL (nodeConfig : CNode) (previousNodeName : String) : String :=
  let factory := getEntryValue nodeConfig "factory"
  if factory = "" then "Invalid node configuration: missing factory value."
  else if factory = CSV_FACTORY then convertCSVReaderNodeToSQL nodeConfig
  else if factory = COLUMN_FILTER_FACTORY then
    convertColumnFilterNodeToSQL nodeConfig
      (if previousNodeName = "" then "input_table" else previousNodeName)
  else unsupportedNodeMessage

/-- One row of the viewer's node table. -/
structure NodeRecord where
  id : Option Nat
  nodeName : String
  nodeType : String
  nodeStatus : String
  description : String
  order : Option Nat
  nextNodes : List Nat
deriving DecidableEq

/-- `nodeFolder.match(/#(\d+)\)?$/)` then `parseInt(match[1], 10)`: an
optional single trailing `)` is stripped, the maximal trailing digit run
must be non-empty and preceded by `#`. -/
def parseNodeIdFromFolder (folder : String) : Option Nat :=
  let l := folder.data
  let l1 := if l.getLast? = some ')' then l.dropLast else l
  let ds := (l1.reverse.takeWhile Char.isDigit).reverse
  let pre := l1.take (l1.length - ds.length)
  if ds.isEmpty then none
  else if pre.getLast? = some '#' then some (digitsToNat ds)
  else none

/-- `nodeOrderMap[id]` built by `nodes.forEach((node, index) => ...)`
(a duplicated id keeps the last assignment, ids are unique by invariant). -/
def nodeOrderMapLookup (nodeIds : List Nat) (i : Nat) : Option Nat :=
  ((nodeIds.enum.filter (fun p => p.2 = i)).getLast?).map (fun p => p.1)

/-- `nextNodeMap[src]` built by pushing each connection's destination in
declaration order (an absent key reads as the empty list). -/
def nextNodeMapLookup (connections : List (Nat × Nat)) (src : Nat) : List Nat :=
  (connections.filter (fun c => c.1 = src)).map (fun c => c.2)

/-- One parsed settings.xml turned into a table row (the body of the
`xmlPaths.forEach` in `handleUpload`).  `folder` is the name of the
directory containing the settings.xml. -/
def makeNodeRecord (nodeIds : List Nat) (connections : List (Nat × Nat))
    (folder : String) (cfg : CNode) : NodeRecord :=
  let nodeId := parseNodeIdFromFolder folder
  { id := nodeId
    nodeName := getEntryValue cfg "name"
    nodeType := getEntryValue cfg "factory"
    nodeStatus := getEntryValue cfg "state"
    description := getEntryValue cfg "customDescription"
    order := nodeId.bind (nodeOrderMapLookup nodeIds)
    nextNodes :=
      match nodeId with
      | some i => nextNodeMapLookup connections i
      | none => [] }

/-- The record set accumulated by `handleUpload`: exactly one record per
parsed settings document (order-independent up to permutation; we list them
in discovery order). -/
def buildNodeRecords (nodeIds : List Nat) (connections : List (Nat × Nat))
    (settingsDocs : List (String × CNode)) : List NodeRecord :=
  settingsDocs.map (fun d => makeNodeRecord nodeIds connections d.1 d.2)

end Viewer

/-! ### Shared predicates on translator output text -/

/-- Diagnostic text: carries the `Error:` prefix. -/
def IsDiag (s : String) : Prop := ∃ t, s = "Error:" ++ t

/-- SQL text terminated by `;`. -/
def EndsSemi (s : String) : Prop := ∃ t, s = t ++ ";"

/-- The degraded passthrough outputs: a passthrough query followed by a
`-- Warning:` comment. -/
def IsDegraded (s : String) : Prop :=
  (∃ t, s = t ++ rowFilterWarnSuffix) ∨ (∃ t, s = t ++ sorterWarnNoCriteria) ∨
    (∃ t, s = t ++ sorterWarnNoneValid)

theorem isDiag_append {a : String} (h : IsDiag a) (b : String) : IsDiag (a ++ b) := by
  obtain ⟨t, rfl⟩ := h
  exact ⟨t ++ b, String.append_assoc _ _ _⟩

theorem isDiag_head {s : String} (h : IsDiag s) : s.data.head? = some 'E' := by
  obtain ⟨t, rfl⟩ := h
  rw [String.data_append]
  rfl

theorem endsSemi_last {s : String} (h : EndsSemi s) : s.data.getLast? = some ';' := by
  obtain ⟨t, rfl⟩ := h
  rw [String.data_append]
  exact List.getLast?_concat _

/-! ### Concrete example inputs -/

/-- A Row Filter predicate whose comparison operator is `REGEX` and whose
value entry is typed `xboolean` (a predicate on a boolean column). -/
def c1Pred : CNode := .mk "0"
  (some [⟨"operator", some "xstring", some "REGEX"⟩])
  (some [
    .mk "column" (some [⟨"selected", some "xstring", some "c"⟩]) none,
    .mk "predicateValues" none (some [
      .mk "values" none (some [
        .mk "0" (some [⟨"value", some "xboolean", some "true"⟩])
          (some [
            .mk "typeIdentifier"
              (some [⟨"cell_class", some "xstring", some "org.knime.core.data.def.BooleanCell"⟩])
              none])])])])

/-- A well-formed Row Filter settings tree containing `c1Pred`. -/
def c1FailTree : CNode := .mk "settings.xml"
  (some [⟨"factory", some "xstring", some ROW_FILTER_FACTORY⟩])
  (some [
    .mk "model"
      (some [⟨"outputMode", some "xstring", some "MATCHING"⟩,
             ⟨"matchCriteria", some "xstring", some "AND"⟩])
      (some [.mk "predicates" none (some [c1Pred])])])

/-- A Row Filter settings tree whose single predicate lacks any
configuration, so every predicate is dropped. -/
def c2DegradedTree : CNode := .mk "settings.xml"
  (some [⟨"factory", some "xstring", some ROW_FILTER_FACTORY⟩])
  (some [
    .mk "model"
      (some [⟨"outputMode", some "xstring", some "MATCHING"⟩,
             ⟨"matchCriteria", some "xstring", some "AND"⟩])
      (some [.mk "predicates" none (some [.mk "0" none none])])])

/-- A settings tree with a factory identifier unknown to the dispatcher. -/
def c3UnknownTree : CNode := .mk "settings.xml"
  (some [⟨"factory", some "xstring", some "com.example.SomeOtherNodeFactory"⟩]) none

/-- A minimal parsed settings document for the graph-builder claims. -/
def c4Doc : CNode := .mk "settings.xml"
  (some [⟨"name", some "xstring", some "Row Filter"⟩,
         ⟨"factory", some "xstring", some ROW_FILTER_FACTORY⟩,
         ⟨"state", some "xstring", some "EXECUTED"⟩]) none

/-! ## C1 -/

/-- C1: "Every translator ... returns a result value normally: no
fault/exception ever propagates out of the translator boundary."  The code
violates this: on `c1FailTree` — a well-formed settings tree whose `REGEX`
predicate carries an `xboolean` value — `convertRowFilterNodeToSQL` reaches
`value.replace(/'/g, "''")` with a boolean `value` and raises
`TypeError: value.replace is not a function` (embedded as `none`). -/
theorem c1_rowfilter_fault : convertRowFilterNodeToSQL c1FailTree "input_table" = none := by
  rfl

/-! ## C3 -/

/-- C3 counterexample: the dispatcher's unknown-factory diagnostic
"Conversion for this node type is not supported." is returned as ordinary
data but does NOT carry the `Error:` prefix, refuting the claim that every
non-SQL result at the dispatcher boundary is prefixed `Error:`. -/
theorem c3_counterexample :
    Viewer.convertSelectedNodeToSQL c3UnknownTree "prev" = Viewer.unsupportedNodeMessage ∧
      ¬ IsDiag Viewer.unsupportedNodeMessage := by
  refine ⟨rfl, fun h => ?_⟩
  have hh := isDiag_head h
  exact absurd hh (by decide)

/-- C3 (amended): for every settings tree whose factory entry is non-empty
and matches neither registered identifier, the dispatcher returns the fixed
diagnostic "Conversion for this node type is not supported." as ordinary
data (never a raised fault); that dispatcher-level diagnostic does not carry
the `Error:` prefix. -/
theorem c3_amended :
    (∀ (nodeConfig : CNode) (previousNodeName : String),
        Viewer.getEntryValue nodeConfig "factory" ≠ "" →
        Viewer.getEntryValue nodeConfig "factory" ≠ Viewer.CSV_FACTORY →
        Viewer.getEntryValue nodeConfig "factory" ≠ Viewer.COLUMN_FILTER_FACTORY →
        Viewer.convertSelectedNodeToSQL nodeConfig previousNodeName =
          Viewer.unsupportedNodeMessage) ∧
      ¬ IsDiag Viewer.unsupportedNodeMessage := by
  constructor
  · intro nodeConfig previousNodeName h1 h2 h3
    simp [Viewer.convertSelectedNodeToSQL, h1, h2, h3]
  · intro h
    exact absurd (isDiag_head h) (by decide)

/-- C3 witness: the amended theorem applied to the concrete unknown-factory
tree. -/
theorem c3_witness :
    Viewer.convertSelectedNodeToSQL c3UnknownTree "prev" = Viewer.unsupportedNodeMessage :=
  c3_amended.1 c3UnknownTree "prev" (by decide) (by decide) (by decide)

/-! ## C4 -/

/-- C4 counterexample: node id 5 appears in the workflow descriptor's node
list but has no settings document; the builder emits no record at all for
it, refuting "a node present in only one of the two sources is never
silently dropped". -/
theorem c4_counterexample :
    Viewer.buildNodeRecords [5] [] [] = [] ∧ (5 : Nat) ∈ ([5] : List Nat) :=
  ⟨rfl, by decide⟩

/-- C4 (amended): the builder emits exactly one record per parsed settings
document — a settings document is never dropped, and its record carries
whatever descriptor fields resolve (order, next nodes) — but nodes present
only in the descriptor produce no record. -/
theorem c4_amended :
    ∀ (nodeIds : List Nat) (connections : List (Nat × Nat))
      (settingsDocs : List (String × CNode)),
      (Viewer.buildNodeRecords nodeIds connections settingsDocs).length =
          settingsDocs.length ∧
        ∀ d ∈ settingsDocs,
          Viewer.makeNodeRecord nodeIds connections d.1 d.2 ∈
            Viewer.buildNodeRecords nodeIds connections settingsDocs := by
  intro nodeIds connections settingsDocs
  exact ⟨List.length_map _ _, fun d hd => List.mem_map_of_mem _ hd⟩

/-- C4 witness: one settings document in folder "Row Filter (#2)" with
descriptor nodes [1, 2]; its record is emitted. -/
theorem c4_witness :
    Viewer.makeNodeRecord [1, 2] [(1, 2)] "Row Filter (#2)" c4Doc ∈
      Viewer.buildNodeRecords [1, 2] [(1, 2)] [("Row Filter (#2)", c4Doc)] :=
  (c4_amended [1, 2] [(1, 2)] [("Row Filter (#2)", c4Doc)]).2 ("Row Filter (#2)", c4Doc)
    (by simp)

/-! ## C5 -/

/-- The ten operators of the fixed mapping table. -/
def knimeOperatorTableKeys : List String :=
  ["EQ", "NEQ", "LT", "LE", "GT", "GE", "LIKE", "REGEX", "IS_MISSING", "IS_NOT_MISSING"]

/-- C5 counterexample: `WILDCARD` is not in the fixed table, yet
`mapKnimeOperatorToSQL` maps it to the SQL operator `=` (the `default` case),
refuting "no KNIME operator outside this table is mapped to a SQL
operator". -/
theorem c5_counterexample :
    mapKnimeOperatorToSQL "WILDCARD" = "=" ∧ "WILDCARD" ∉ knimeOperatorTableKeys :=
  ⟨rfl, by decide⟩

/-- C5 (amended): the resolver realises exactly the documented ten-entry
table (EQ↦=, NEQ↦!=, LT↦<, LE↦<=, GT↦>, GE↦>=, LIKE↦LIKE, REGEX↦REGEXP,
IS_MISSING↦IS NULL, IS_NOT_MISSING↦IS NOT NULL), and every operator outside
the table falls back to `=` (with a logged warning) instead of being left
unmapped. -/
theorem c5_operator_table :
    (mapKnimeOperatorToSQL "EQ" = "=" ∧ mapKnimeOperatorToSQL "NEQ" = "!=" ∧
      mapKnimeOperatorToSQL "LT" = "<" ∧ mapKnimeOperatorToSQL "LE" = "<=" ∧
      mapKnimeOperatorToSQL "GT" = ">" ∧ mapKnimeOperatorToSQL "GE" = ">=" ∧
      mapKnimeOperatorToSQL "LIKE" = "LIKE" ∧ mapKnimeOperatorToSQL "REGEX" = "REGEXP" ∧
      mapKnimeOperatorToSQL "IS_MISSING" = "IS NULL" ∧
      mapKnimeOperatorToSQL "IS_NOT_MISSING" = "IS NOT NULL") ∧
    ∀ op : String, op ∉ knimeOperatorTableKeys → mapKnimeOperatorToSQL op = "=" := by
  refine ⟨by decide, fun op h => ?_⟩
  simp only [knimeOperatorTableKeys, List.mem_cons, List.not_mem_nil, or_false, not_or] at h
  obtain ⟨h1, h2, h3, h4, h5, h6, h7, h8, h9, h10⟩ := h
  simp [mapKnimeOperatorToSQL, h1, h2, h3, h4, h5, h6, h7, h8, h9, h10]

/-- C5 witness: the fallback clause of the amended theorem applied to the
concrete operator "FOO". -/
theorem c5_witness : "FOO" ∉ knimeOperatorTableKeys ∧ mapKnimeOperatorToSQL "FOO" = "=" :=
  ⟨by decide, c5_operator_table.2 "FOO" (by decide)⟩

/-! ## C6 -/

theorem jsRepC_len_single (t a : Char) (l : List Char) :
    (jsRepC t [a] l).length = l.length := by
  induction l with
  | nil => rfl
  | cons c cs ih =>
    by_cases h : c = t <;> simp [jsRepC, h, ih]

theorem jsRepC_len_two (t a b : Char) (l : List Char) :
    (jsRepC t [a, b] l).length = l.length + l.count t := by
  induction l with
  | nil => rfl
  | cons c cs ih =>
    by_cases h : c = t <;> simp [jsRepC, h, ih, List.count_cons] <;> omega

theorem jsRepC_count_ne (t u : Char) (r : List Char) (hu : u ≠ t) (hr : u ∉ r)
    (l : List Char) : (jsRepC t r l).count u = l.count u := by
  induction l with
  | nil => rfl
  | cons c cs ih =>
    by_cases h : c = t
    · subst h
      simp [jsRepC, List.count_append, ih, List.count_cons,
        List.count_eq_zero.mpr hr, Ne.symm hu]
    · simp [jsRepC, h, ih, List.count_cons]

theorem jsRepC_id (t : Char) (r : List Char) {l : List Char} (h : t ∉ l) :
    jsRepC t r l = l := by
  induction l with
  | nil => rfl
  | cons c cs ih =>
    simp only [List.mem_cons, not_or] at h
    simp [jsRepC, Ne.symm h.1, ih h.2]

/-- The length of the escaped characters: every literal `%` and `_` grows
the string by one. -/
theorem escape_len (l : List Char) :
    (jsRepC '_' ['\\', '_'] (jsRepC '%' ['\\', '%'] l)).length =
      l.length + l.count '%' + l.count '_' := by
  rw [jsRepC_len_two, jsRepC_len_two,
    jsRepC_count_ne '%' '_' ['\\', '%'] (by decide) (by decide)]

/-- The wildcard-replacement steps preserve length. -/
theorem wildcard_len (l : List Char) : (plainWildcardChars l).length = l.length := by
  unfold plainWildcardChars
  rw [jsRepC_len_single, jsRepC_len_single]

theorem translate_len (l : List Char) :
    (translateKnimeWildcardToSQLChars l).length = l.length + l.count '%' + l.count '_' := by
  unfold translateKnimeWildcardToSQLChars
  rw [jsRepC_len_single, jsRepC_len_single, escape_len]

/-- The full translation equals the wildcard-only translation exactly when
the source contains no literal `%` or `_`. -/
theorem translate_eq_plain_iff (l : List Char) :
    translateKnimeWildcardToSQLChars l = plainWildcardChars l ↔ ('%' ∉ l ∧ '_' ∉ l) := by
  constructor
  · intro h
    have hlen := congrArg List.length h
    rw [translate_len, wildcard_len] at hlen
    constructor
    · intro hm
      have : l.count '%' ≠ 0 := fun h0 => (List.count_eq_zero.mp h0) hm
      omega
    · intro hm
      have : l.count '_' ≠ 0 := fun h0 => (List.count_eq_zero.mp h0) hm
      omega
  · intro ⟨h1, h2⟩
    unfold translateKnimeWildcardToSQLChars plainWildcardChars
    rw [jsRepC_id '%' _ h1, jsRepC_id '_' _ h2]

/-- C6: for every string value of a LIKE predicate, the SQL pattern is built
by pre-escaping literal `%`/`_` and then replacing `*`→`%`, `?`→`_`, and the
`ESCAPE '\'` clause is appended if and only if the source value contained a
literal `%` or `_` (i.e. pre-escaping changed the pattern). -/
theorem c6_wildcard_escape :
    ∀ v : String,
      (likeEscapeSuffix v = " ESCAPE " ++ sqS ++ "\\" ++ sqS ↔
        ('%' ∈ v.data ∨ '_' ∈ v.data)) ∧
      translateKnimeWildcardToSQL (EVal.str v) =
        String.mk (plainWildcardChars (jsRepC '_' ['\\', '_'] (jsRepC '%' ['\\', '%'] v.data))) := by
  intro v
  refine ⟨?_, rfl⟩
  unfold likeEscapeSuffix
  have hmk : (String.mk (translateKnimeWildcardToSQLChars v.data) ≠
      String.mk (plainWildcardChars v.data)) ↔
      translateKnimeWildcardToSQLChars v.data ≠ plainWildcardChars v.data := by
    constructor
    · intro h he
      exact h (congrArg String.mk he)
    · intro h he
      exact h (congrArg String.data he)
  by_cases hne : translateKnimeWildcardToSQLChars v.data = plainWildcardChars v.data
  · rw [if_neg (fun hc => (hmk.mp hc) hne)]
    have := (translate_eq_plain_iff v.data).mp hne
    constructor
    · intro h
      exact absurd h (by decide)
    · intro h
      rcases h with h | h
      · exact absurd h this.1
      · exact absurd h this.2
  · rw [if_pos (hmk.mpr hne)]
    constructor
    · intro _
      by_contra hno
      push_neg at hno
      exact hne ((translate_eq_plain_iff v.data).mpr ⟨hno.1, hno.2⟩)
    · intro _
      rfl

/-- C6 witness: the theorem applied to the value "50%" (contains a literal
`%`, so the ESCAPE clause is appended). -/
theorem c6_witness : likeEscapeSuffix "50%" = " ESCAPE " ++ sqS ++ "\\" ++ sqS :=
  (c6_wildcard_escape "50%").1.mpr (Or.inl (by decide))

/-! ## C9 -/

/-- Shape of a single emitted ORDER BY term: quoted column, direction,
the (shared) null-ordering keyword, optional advisory comment. -/
theorem sorterCriterionPart_shape (nullsOrder : String) (c : CNode) (p : String)
    (h : sorterCriterionPart nullsOrder c = .ok (some p)) :
    ∃ col dir cm,
      p = quoteIdent col ++ " " ++ dir ++ " " ++ nullsOrder ++ cm ∧
        (dir = "ASC" ∨ dir = "DESC") := by
  simp only [sorterCriterionPart] at h
  split at h
  · simp at h
  · split at h
    · simp at h
    · split at h
      · simp at h
      · rename_i col _
        split at h
        · split at h <;>
            (simp only [Except.ok.injEq, Option.some.injEq] at h; subst h;
             exact ⟨col, "DESC", _, rfl, Or.inr rfl⟩)
        · split at h <;>
            (simp only [Except.ok.injEq, Option.some.injEq] at h; subst h;
             exact ⟨col, "ASC", _, rfl, Or.inl rfl⟩)

/-- Every ORDER BY part accumulated by the criteria loop has the term
shape with the one shared null-ordering keyword. -/
theorem sorterOrderByParts_shape (nullsOrder : String) :
    ∀ (cs : List CNode) (parts : List String),
      sorterOrderByParts nullsOrder cs = .ok parts →
      ∀ p ∈ parts,
        ∃ col dir cm,
          p = quoteIdent col ++ " " ++ dir ++ " " ++ nullsOrder ++ cm ∧
            (dir = "ASC" ∨ dir = "DESC") := by
  intro cs
  induction cs with
  | nil =>
    intro parts h p hp
    simp only [sorterOrderByParts, Except.ok.injEq] at h
    subst h
    simp at hp
  | cons c cs ih =>
    intro parts h p hp
    simp only [sorterOrderByParts] at h
    split at h
    · simp at h
    · split at h
      · simp at h
      · split at h
        · rename_i parts' hparts _x s hsome
          simp only [Except.ok.injEq] at h
          subst h
          rcases List.mem_cons.mp hp with rfl | hmem
          · exact sorterCriterionPart_shape nullsOrder c p hsome
          · exact ih parts' hparts p hmem
        · rename_i parts' hparts _x hnone
          simp only [Except.ok.injEq] at h
          subst h
          exact ih parts' hparts p hp

/-- C9: the Sorter applies one global null-ordering flag uniformly: every
term emitted into ORDER BY has the form
`<column> ASC|DESC <nullsOrder> [comment]` where `<nullsOrder>` is the one
string passed to the whole loop, and that string is `NULLS LAST` exactly
when the model's `missingToEnd` entry is the boolean true, `NULLS FIRST`
otherwise. -/
theorem c9_sorter_nulls :
    (∀ (nullsOrder : String) (cs : List CNode) (parts : List String),
        sorterOrderByParts nullsOrder cs = .ok parts →
        ∀ p ∈ parts,
          ∃ col dir cm,
            p = quoteIdent col ++ " " ++ dir ++ " " ++ nullsOrder ++ cm ∧
              (dir = "ASC" ∨ dir = "DESC")) ∧
      ∀ modelNode : CNode,
        (getEntryValue modelNode.entry "missingToEnd" = EVal.bool true →
          sorterNullsOrder modelNode = "NULLS LAST") ∧
        (getEntryValue modelNode.entry "missingToEnd" ≠ EVal.bool true →
          sorterNullsOrder modelNode = "NULLS FIRST") := by
  refine ⟨sorterOrderByParts_shape, fun modelNode => ⟨fun h => ?_, fun h => ?_⟩⟩
  · simp [sorterNullsOrder, h]
  · simp [sorterNullsOrder, h]

/-- The criterion of the claim's example: column "age", DESCENDING. -/
def c9SorterCriterion : CNode := .mk "0"
  (some [⟨"sortingOrder", some "xstring", some "DESCENDING"⟩,
         ⟨"stringComparison", some "xstring", some "NATURAL"⟩])
  (some [.mk "column" (some [⟨"selected", some "xstring", some "age"⟩]) none])

/-- A Sorter model with `missingToEnd` = true. -/
def c9SorterModel : CNode := .mk "model"
  (some [⟨"missingToEnd", some "xboolean", some "true"⟩])
  (some [.mk "sortingCriteria" none (some [c9SorterCriterion])])

/-- C9 witness: with `missingToEnd` = true the flag is `NULLS LAST`, and the
emitted term for `{column: "age", order: "DESCENDING"}` contains
`"age" DESC NULLS LAST`. -/
theorem c9_witness :
    (∃ col dir cm,
        ("\"age\" DESC NULLS LAST" : String) =
          quoteIdent col ++ " " ++ dir ++ " " ++ "NULLS LAST" ++ cm ∧
          (dir = "ASC" ∨ dir = "DESC")) ∧
      sorterNullsOrder c9SorterModel = "NULLS LAST" :=
  ⟨c9_sorter_nulls.1 "NULLS LAST" [c9SorterCriterion] ["\"age\" DESC NULLS LAST"] rfl
      "\"age\" DESC NULLS LAST" (by simp),
    (c9_sorter_nulls.2 c9SorterModel).1 rfl⟩

/-! ## C10 -/

/-- The value configuration of the C10 counterexample predicate. -/
def c10CounterSVC : CNode := .mk "0"
  (some [⟨"value", some "xstring", some "x"⟩])
  (some [.mk "typeIdentifier" (some [⟨"is_null", some "xboolean", some "true"⟩]) none])

/-- A predicate whose value configuration carries `is_null = true` but whose
declared operator is `IS_NOT_MISSING`. -/
def c10CounterPred : CNode := .mk "0"
  (some [⟨"operator", some "xstring", some "IS_NOT_MISSING"⟩])
  (some [
    .mk "column" (some [⟨"selected", some "xstring", some "c"⟩]) none,
    .mk "predicateValues" none (some [.mk "values" none (some [c10CounterSVC])])])

/-- C10 counterexample: a predicate whose value configuration carries
`is_null = true` but whose operator is `IS_NOT_MISSING` emits
`"c" IS NOT NULL`, not `"c" IS NULL` — the operator is NOT ignored for the
missingness operators, refuting "regardless of which comparison operator the
predicate declares". -/
theorem c10_counterexample :
    processPredicate c10CounterPred = .ok (some "\"c\" IS NOT NULL") ∧
      getEntryValue ((findConfigByKey c10CounterSVC.config "typeIdentifier").bind CNode.entry)
          "is_null" = EVal.bool true ∧
      ("\"c\" IS NOT NULL" : String) ≠ "\"c\" IS NULL" :=
  ⟨rfl, rfl, by decide⟩

/-- C10 (amended): for every predicate whose declared operator maps to a
value-requiring SQL operator (anything except `IS NULL`/`IS NOT NULL`), a
value configuration carrying `is_null = true` makes the translator emit
`<quoted column> IS NULL`, ignoring the declared operator and the literal
value. -/
theorem c10_amended
    (predConfig columnNode predicateValuesNode valuesNode singleValueConfig : CNode)
    (operatorEntry : Entry) (pconf pvConf vConf svConf : List CNode)
    (svEntry : List Entry) (col knimeOperator : String)
    (hconf : predConfig.config = some pconf)
    (hcol : findConfigByKey (some pconf) "column" = some columnNode)
    (hop : findEntryByKey predConfig.entry "operator" = some operatorEntry)
    (hpv : findConfigByKey (some pconf) "predicateValues" = some predicateValuesNode)
    (hpvc : predicateValuesNode.config = some pvConf)
    (hvn : findConfigByKey (some pvConf) "values" = some valuesNode)
    (hvc : valuesNode.config = some vConf)
    (hsel : getEntryValue columnNode.entry "selected" = EVal.str col)
    (hcolne : col ≠ "")
    (hopv : operatorEntry.value = some knimeOperator)
    (hopne : knimeOperator ≠ "")
    (hnotnull : mapKnimeOperatorToSQL knimeOperator ≠ "IS NULL")
    (hnotnotnull : mapKnimeOperatorToSQL knimeOperator ≠ "IS NOT NULL")
    (hsvc : findConfigByKey (some vConf) "0" = some singleValueConfig)
    (hsve : singleValueConfig.entry = some svEntry)
    (hsvcc : singleValueConfig.config = some svConf)
    (hisnull :
      getEntryValue ((findConfigByKey (some svConf) "typeIdentifier").bind CNode.entry)
        "is_null" = EVal.bool true) :
    processPredicate predConfig = .ok (some (quoteIdent col ++ " IS NULL")) := by
  simp only [processPredicate, hconf, hcol, hop, hpv, hpvc, hvn, hvc, hsel, hopv]
  rw [if_neg (by simp [jsFalsy, hcolne]), if_neg hopne]
  simp only [processPredicateWithValue, hsvc, hsve, hsvcc, hisnull]
  rw [if_neg (by rw [not_or]; exact ⟨hnotnull, hnotnotnull⟩)]
  simp [asString]

def c10wColumn : CNode := .mk "column" (some [⟨"selected", some "xstring", some "c"⟩]) none

def c10wTypeId : CNode :=
  .mk "typeIdentifier" (some [⟨"is_null", some "xboolean", some "true"⟩]) none

def c10wSVC : CNode := .mk "0" (some [⟨"value", some "xstring", some "99"⟩]) (some [c10wTypeId])

def c10wValues : CNode := .mk "values" none (some [c10wSVC])

def c10wPredVals : CNode := .mk "predicateValues" none (some [c10wValues])

/-- A `GT` predicate on column "c" with literal 99 whose type identifier
carries `is_null = true`. -/
def c10wPred : CNode := .mk "0"
  (some [⟨"operator", some "xstring", some "GT"⟩])
  (some [c10wColumn, c10wPredVals])

/-- C10 witness: the amended theorem applied to a concrete `GT` predicate
with `is_null = true`, yielding `"c" IS NULL` with operator and value
ignored. -/
theorem c10_witness : processPredicate c10wPred = .ok (some (quoteIdent "c" ++ " IS NULL")) :=
  c10_amended c10wPred c10wColumn c10wPredVals c10wValues c10wSVC
    ⟨"operator", some "xstring", some "GT"⟩ [c10wColumn, c10wPredVals] [c10wValues]
    [c10wSVC] [c10wTypeId] [⟨"value", some "xstring", some "99"⟩] "c" "GT"
    rfl rfl rfl rfl rfl rfl rfl rfl (by decide) rfl (by decide) (by decide) (by decide)
    rfl rfl rfl rfl

/-! ## C7 -/

/-- C7: the GroupBy shape rules.  For every settings tree with matching
factory and located model: grouping columns present with zero successfully
mapped aggregations gives `SELECT DISTINCT <grouping>` with no GROUP BY;
aggregations present gives grouping columns and aggregations in SELECT with
GROUP BY over the grouping columns, GROUP BY omitted entirely when there are
no grouping columns; neither present gives a terminal diagnostic. -/
theorem c7_groupby_shapes
    (nodeConfig : CNode) (previousNodeName : String) (modelNode : CNode)
    (aggs : List String)
    (hf : getEntryValue nodeConfig.entry "factory" = EVal.str GROUPBY_FACTORY)
    (hm : findConfigByKey nodeConfig.config "model" = some modelNode)
    (hc : modelNode.config.isNone = false)
    (he : modelNode.entry.isNone = false)
    (ha : groupByAggregations modelNode = .ok aggs) :
    convertGroupByNodeToSQL nodeConfig previousNodeName =
      (if groupByGroupingColumns modelNode = [] ∧ aggs = [] then some groupBySelectError
       else if aggs = [] then
         some ("SELECT DISTINCT\n  "
           ++ joinSep ",\n  " ((groupByGroupingColumns modelNode).map quoteIdent) ++ "\n"
           ++ ("FROM " ++ quoteIdent previousNodeName) ++ ";")
       else if groupByGroupingColumns modelNode = [] then
         some (joinSep "\n" ["SELECT\n  " ++ joinSep ",\n  " aggs,
             "FROM " ++ quoteIdent previousNodeName] ++ ";")
       else
         some (joinSep "\n"
             ["SELECT\n  "
                ++ joinSep ",\n  " ((groupByGroupingColumns modelNode).map quoteIdent ++ aggs),
               "FROM " ++ quoteIdent previousNodeName,
               "GROUP BY\n  "
                 ++ joinSep ",\n  " ((groupByGroupingColumns modelNode).map quoteIdent)] ++ ";")) := by
  simp only [convertGroupByNodeToSQL, hf, hm, hc, he, ha, ne_eq, not_true_eq_false,
    if_false, Bool.or_self, Bool.false_eq_true]
  rcases hg : groupByGroupingColumns modelNode with _ | ⟨g0, gs⟩ <;>
    rcases haggs : aggs with _ | ⟨a0, as⟩ <;>
      simp [List.isEmpty, joinSep]

/-- The GroupBy model of the witness: grouping column "region", no
aggregations. -/
def c7GbModel : CNode := .mk "model"
  (some [])
  (some [
    .mk "grouByColumns" none (some [
      .mk "InclList" (some [⟨"0", some "xstring", some "region"⟩]) none])])

def c7GbTree : CNode := .mk "settings.xml"
  (some [⟨"factory", some "xstring", some GROUPBY_FACTORY⟩])
  (some [c7GbModel])

/-- C7 witness: grouping ["region"] with zero aggregations yields
`SELECT DISTINCT "region" FROM "t";` with no GROUP BY. -/
theorem c7_witness :
    convertGroupByNodeToSQL c7GbTree "t" = some "SELECT DISTINCT\n  \"region\"\nFROM \"t\";" :=
  (c7_groupby_shapes c7GbTree "t" c7GbModel [] rfl rfl rfl rfl rfl).trans (by decide)

/-! ## C8 -/

theorem mem_jsDedupGo (c : String) :
    ∀ (l seen : List String), c ∈ jsDedupGo seen l ↔ (c ∈ l ∧ c ∉ seen) := by
  intro l
  induction l with
  | nil => intro seen; simp [jsDedupGo]
  | cons x xs ih =>
    intro seen
    by_cases hx : x ∈ seen
    · rw [jsDedupGo, if_pos hx, ih]
      constructor
      · exact fun ⟨h1, h2⟩ => ⟨List.mem_cons_of_mem x h1, h2⟩
      · rintro ⟨h1, h2⟩
        rcases List.mem_cons.mp h1 with rfl | h1
        · exact absurd hx h2
        · exact ⟨h1, h2⟩
    · rw [jsDedupGo, if_neg hx]
      constructor
      · intro h
        rcases List.mem_cons.mp h with rfl | h
        · exact ⟨List.mem_cons_self _ _, hx⟩
        · obtain ⟨h1, h2⟩ := (ih (x :: seen)).mp h
          exact ⟨List.mem_cons_of_mem x h1,
            fun hc => h2 (List.mem_cons_of_mem x hc)⟩
      · rintro ⟨h1, h2⟩
        rcases List.mem_cons.mp h1 with rfl | h1
        · exact List.mem_cons_self _ _
        · by_cases hcx : c = x
          · subst hcx; exact List.mem_cons_self _ _
          · exact List.mem_cons_of_mem _ ((ih (x :: seen)).mpr
              ⟨h1, fun hc => (List.mem_cons.mp hc).elim hcx h2⟩)

theorem nodup_jsDedupGo : ∀ (l seen : List String), (jsDedupGo seen l).Nodup := by
  intro l
  induction l with
  | nil => intro seen; simp [jsDedupGo]
  | cons x xs ih =>
    intro seen
    by_cases hx : x ∈ seen
    · rw [jsDedupGo, if_pos hx]; exact ih seen
    · rw [jsDedupGo, if_neg hx, List.nodup_cons]
      refine ⟨fun hmem => ?_, ih (x :: seen)⟩
      obtain ⟨_, h2⟩ := (mem_jsDedupGo x xs (x :: seen)).mp hmem
      exact h2 (List.mem_cons_self _ _)

theorem mem_jsDedup (c : String) (l : List String) : c ∈ jsDedup l ↔ c ∈ l := by
  rw [jsDedup, mem_jsDedupGo]
  simp

theorem nodup_jsDedup (l : List String) : (jsDedup l).Nodup := nodup_jsDedupGo l []

theorem mem_insertSorted (x : String) :
    ∀ (l : List String) (c : String), c ∈ insertSorted x l ↔ c = x ∨ c ∈ l := by
  intro l
  induction l with
  | nil => intro c; simp [insertSorted]
  | cons y ys ih =>
    intro c
    unfold insertSorted
    split
    · simp
    · simp only [List.mem_cons, ih]
      tauto

theorem mem_sortStrings (c : String) : ∀ l : List String, c ∈ sortStrings l ↔ c ∈ l := by
  intro l
  induction l with
  | nil => simp [sortStrings]
  | cons x xs ih =>
    rw [sortStrings, mem_insertSorted, ih]
    simp

theorem lexLe_total : ∀ a b : List Char, lexLe a b = true ∨ lexLe b a = true := by
  intro a
  induction a with
  | nil => intro b; left; rfl
  | cons x xs ih =>
    intro b
    cases b with
    | nil => right; rfl
    | cons y ys =>
      by_cases h : x.toNat = y.toNat
      · rw [lexLe, if_pos h, lexLe, if_pos h.symm]
        exact ih ys
      · rw [lexLe, if_neg h, lexLe, if_neg (fun hh => h hh.symm)]
        rcases Nat.lt_or_ge x.toNat y.toNat with hlt | hge
        · left; exact decide_eq_true hlt
        · right; exact decide_eq_true (Nat.lt_of_le_of_ne hge (fun hh => h hh.symm))

theorem lexLe_trans :
    ∀ a b c : List Char, lexLe a b = true → lexLe b c = true → lexLe a c = true := by
  intro a
  induction a with
  | nil => intro b c _ _; rfl
  | cons x xs ih =>
    intro b c hab hbc
    cases b with
    | nil => simp [lexLe] at hab
    | cons y ys =>
      cases c with
      | nil => simp [lexLe] at hbc
      | cons z zs =>
        rw [lexLe] at hab hbc ⊢
        by_cases hxy : x.toNat = y.toNat
        · rw [if_pos hxy] at hab
          by_cases hyz : y.toNat = z.toNat
          · rw [if_pos hyz] at hbc
            rw [if_pos (hxy.trans hyz)]
            exact ih ys zs hab hbc
          · rw [if_neg hyz] at hbc
            have hlt : y.toNat < z.toNat := of_decide_eq_true hbc
            rw [if_neg (by omega)]
            exact decide_eq_true (by omega)
        · rw [if_neg hxy] at hab
          have hlt : x.toNat < y.toNat := of_decide_eq_true hab
          by_cases hyz : y.toNat = z.toNat
          · rw [if_neg (by omega)]
            exact decide_eq_true (by omega)
          · rw [if_neg hyz] at hbc
            have hlt2 : y.toNat < z.toNat := of_decide_eq_true hbc
            rw [if_neg (by omega)]
            exact decide_eq_true (by omega)

theorem sorted_insertSorted (x : String) :
    ∀ l : List String, l.Sorted strLe → (insertSorted x l).Sorted strLe := by
  intro l
  induction l with
  | nil => intro _; simp [insertSorted]
  | cons y ys ih =>
    intro hs
    rw [List.sorted_cons] at hs
    obtain ⟨hy, hys⟩ := hs
    unfold insertSorted
    split
    · rename_i hxy
      rw [List.sorted_cons]
      refine ⟨fun b hb => ?_, by rw [List.sorted_cons]; exact ⟨hy, hys⟩⟩
      rcases List.mem_cons.mp hb with rfl | hbys
      · exact hxy
      · exact lexLe_trans _ _ _ hxy (hy b hbys)
    · rename_i hxy
      rw [List.sorted_cons]
      refine ⟨fun b hb => ?_, ih hys⟩
      rcases (mem_insertSorted x ys b).mp hb with rfl | hbys
      · exact (lexLe_total b.data y.data).resolve_left (by simpa using hxy)
      · exact hy b hbys

theorem sorted_sortStrings : ∀ l : List String, (sortStrings l).Sorted strLe := by
  intro l
  induction l with
  | nil => simp [sortStrings]
  | cons x xs ih => exact sorted_insertSorted x _ ih

theorem nodup_insertSorted (x : String) :
    ∀ l : List String, x ∉ l → l.Nodup → (insertSorted x l).Nodup := by
  intro l
  induction l with
  | nil => intro _ _; simp [insertSorted]
  | cons y ys ih =>
    intro hx hn
    rw [List.nodup_cons] at hn
    obtain ⟨hyys, hnys⟩ := hn
    unfold insertSorted
    split
    · rw [List.nodup_cons, List.nodup_cons]
      exact ⟨hx, hyys, hnys⟩
    · rw [List.nodup_cons]
      constructor
      · intro hmem
        rcases (mem_insertSorted x ys y).mp hmem with heq | hyys2
        · exact hx (heq ▸ List.mem_cons_self y ys)
        · exact hyys hyys2
      · exact ih (fun hxys => hx (List.mem_cons_of_mem y hxys)) hnys

theorem nodup_sortStrings : ∀ l : List String, l.Nodup → (sortStrings l).Nodup := by
  intro l
  induction l with
  | nil => intro _; simp [sortStrings]
  | cons x xs ih =>
    intro hn
    rw [List.nodup_cons] at hn
    exact nodup_insertSorted x _ (fun hc => hn.1 ((mem_sortStrings x xs).mp hc)) (ih hn.2)

theorem mem_foldl_filter (c : String) :
    ∀ (sets : List (List String)) (acc : List String),
      c ∈ sets.foldl (fun acc s => acc.filter (fun x => decide (x ∈ s))) acc ↔
        (c ∈ acc ∧ ∀ s ∈ sets, c ∈ s) := by
  intro sets
  induction sets with
  | nil => intro acc; simp
  | cons s ss ih =>
    intro acc
    rw [List.foldl_cons, ih]
    simp only [List.mem_filter, decide_eq_true_eq, List.forall_mem_cons]
    tauto

theorem nodup_foldl_filter :
    ∀ (sets : List (List String)) (acc : List String), acc.Nodup →
      (sets.foldl (fun acc s => acc.filter (fun x => decide (x ∈ s))) acc).Nodup := by
  intro sets
  induction sets with
  | nil => intro acc h; exact h
  | cons s ss ih =>
    intro acc h
    rw [List.foldl_cons]
    exact ih _ (List.Nodup.filter _ h)

theorem concatValidate_none :
    ∀ (ps : List PredCtx), (∀ q ∈ ps, q.nodeName ≠ "") → ∀ i, concatValidate i ps = none := by
  intro ps
  induction ps with
  | nil => intro _ i; rfl
  | cons p ps ih =>
    intro h i
    rw [concatValidate, if_neg (h p (List.mem_cons_self _ _))]
    exact ih (fun q hq => h q (List.mem_cons_of_mem p hq)) (i + 1)

/-- The union-mode example of the claim: predecessors with columns
`{a, b}` and `{b, c}`. -/
def c8ExTree : CNode := .mk "settings.xml"
  (some [⟨"factory", some "xstring", some CONCATENATE_FACTORY⟩]) none

def c8ExPred1 : PredCtx := ⟨"t1", ["a", "b"]⟩

def c8ExPred2 : PredCtx := ⟨"t2", ["b", "c"]⟩

/-- C8: the final output column list is sorted and duplicate-free and its
membership is exactly the set-intersection (intersection mode) or set-union
(union mode) of the predecessors' exposed-column sets; each predecessor's
select entry for a final column it lacks is `NULL AS <col>`; an empty
intersection is a terminal diagnostic.  In particular, predecessors with
columns {a,b} and {b,c} in union mode yield final column order [a,b,c] and
predecessor 1's select list `["t1"."a", "t1"."b", NULL AS "c"]`. -/
theorem c8_concatenate_columns :
    (∀ (nodeConfig : CNode) (preds : List PredCtx), 2 ≤ preds.length →
      (concatFinalColumns nodeConfig preds).Sorted strLe ∧
      (concatFinalColumns nodeConfig preds).Nodup ∧
      (∀ c, c ∈ concatFinalColumns nodeConfig preds ↔
        (if concatIntersectionOfColumns nodeConfig = true then ∀ p ∈ preds, c ∈ p.nodes
         else ∃ p ∈ preds, c ∈ p.nodes)) ∧
      (∀ (p : PredCtx) (c : String), c ∉ p.nodes →
        concatSelectColumn p c = "NULL AS " ++ quoteIdent c) ∧
      (concatIntersectionOfColumns nodeConfig = true →
        getEntryValue nodeConfig.entry "factory" = EVal.str CONCATENATE_FACTORY →
        (∀ q ∈ preds, q.nodeName ≠ "") →
        concatColumnsBase true (concatAllSets preds) = [] →
        convertConcatenateNodeToSQL nodeConfig preds =
          "Error: Intersection of columns resulted in an empty column set.")) ∧
    (concatFinalColumns c8ExTree [c8ExPred1, c8ExPred2] = ["a", "b", "c"] ∧
      (concatFinalColumns c8ExTree [c8ExPred1, c8ExPred2]).map (concatSelectColumn c8ExPred1) =
        ["\"t1\".\"a\"", "\"t1\".\"b\"", "NULL AS \"c\""]) := by
  constructor
  · intro nodeConfig preds hlen
    refine ⟨sorted_sortStrings _, ?_, ?_, ?_, ?_⟩
    · -- Nodup
      rw [concatFinalColumns]
      apply nodup_sortStrings
      rw [concatColumnsBase]
      split
      · cases hs : concatAllSets preds with
        | nil => simp [concatIntersectionColumns]
        | cons s0 rest =>
          rw [concatIntersectionColumns]
          apply nodup_foldl_filter
          have : s0 ∈ concatAllSets preds := hs ▸ List.mem_cons_self _ _
          obtain ⟨p, _, hp⟩ := List.mem_map.mp this
          exact hp ▸ nodup_jsDedup _
      · exact nodup_jsDedup _
    · -- membership characterization
      intro c
      rw [concatFinalColumns, mem_sortStrings]
      by_cases hi : concatIntersectionOfColumns nodeConfig = true
      · rw [if_pos hi, hi, concatColumnsBase, if_pos rfl]
        cases preds with
        | nil => simp at hlen
        | cons p ps =>
          simp only [concatAllSets, List.map_cons, concatIntersectionColumns]
          rw [mem_foldl_filter]
          simp [mem_jsDedup, List.forall_mem_cons]
      · rw [if_neg hi]
        rw [concatColumnsBase, if_neg (by simpa using hi)]
        rw [mem_jsDedup, List.mem_flatten]
        simp [concatAllSets, mem_jsDedup]
    · -- NULL AS substitution
      intro p c hc
      rw [concatSelectColumn, if_neg (by simpa [mem_jsDedup] using hc)]
    · -- empty intersection is terminal
      intro hi hf hval hbase
      rw [convertConcatenateNodeToSQL]
      rw [if_neg (by simp [hf]), if_neg (by omega), concatValidate_none preds hval 0]
      rw [hi]
      simp [hbase]
  · constructor
    · decide
    · decide

/-- C8 witness: the NULL-substitution clause applied to the concrete
union-mode example — predecessor 1 (columns {a,b}) lacks "c", so its select
entry is `NULL AS "c"`. -/
theorem c8_witness : concatSelectColumn c8ExPred1 "c" = "NULL AS " ++ quoteIdent "c" :=
  (c8_concatenate_columns.1 c8ExTree [c8ExPred1, c8ExPred2] (by decide)).2.2.2.1 c8ExPred1 "c"
    (by decide)

/-! ## C2 -/

theorem isDiag_iff_take (s : String) : IsDiag s ↔ s.data.take 6 = "Error:".data := by
  constructor
  · rintro ⟨t, rfl⟩
    rw [String.data_append]
    have h6 : ("Error:".data).length = 6 := by decide
    rw [← h6, List.take_left]
  · intro h
    refine ⟨String.mk (s.data.drop 6), String.ext ?_⟩
    rw [String.data_append]
    show s.data = "Error:".data ++ s.data.drop 6
    rw [← h, List.take_append_drop]

/-- Every Row Filter result string is a diagnostic, SQL ending in `;`, or
the degraded warning passthrough. -/
theorem rowFilterOutputClass (nodeConfig : CNode) (previousNodeName : String)
    (out : String) (h : convertRowFilterNodeToSQL nodeConfig previousNodeName = some out) :
    IsDiag out ∨ EndsSemi out ∨ IsDegraded out := by
  simp only [convertRowFilterNodeToSQL] at h
  split at h
  · rw [Option.some.injEq] at h
    subst h
    exact Or.inl (isDiag_append (isDiag_append (isDiag_append
      (isDiag_append ⟨" Expected Row Filter node factory (", rfl⟩ ROW_FILTER_FACTORY)
        "), but got ") _) ".")
  · split at h
    · rw [Option.some.injEq] at h
      subst h
      exact Or.inl ⟨" Model configuration not found.", rfl⟩
    · split at h
      · rw [Option.some.injEq] at h
        subst h
        exact Or.inl ⟨" Model configuration not found.", rfl⟩
      · split at h
        · rw [Option.some.injEq] at h
          subst h
          exact Or.inl ⟨" Essential filtering parameters (outputMode, matchCriteria, predicates) not found.", rfl⟩
        · split at h
          · rw [Option.some.injEq] at h
            subst h
            exact Or.inl ⟨" Essential filtering parameters (outputMode, matchCriteria, predicates) not found.", rfl⟩
          · split at h
            · rw [Option.some.injEq] at h
              subst h
              exact Or.inl ⟨" Essential filtering parameters (outputMode, matchCriteria, predicates) not found.", rfl⟩
            · split at h
              · exact absurd h (by simp)
              · split at h
                · rw [Option.some.injEq] at h
                  subst h
                  exact Or.inr (Or.inr (Or.inl ⟨_, rfl⟩))
                · rw [Option.some.injEq] at h
                  subst h
                  exact Or.inr (Or.inl ⟨_, rfl⟩)

/-- Every GroupBy result string is a diagnostic or SQL ending in `;`. -/
theorem groupByOutputClass (nodeConfig : CNode) (previousNodeName : String)
    (out : String) (h : convertGroupByNodeToSQL nodeConfig previousNodeName = some out) :
    IsDiag out ∨ EndsSemi out := by
  simp only [convertGroupByNodeToSQL] at h
  split at h
  · rw [Option.some.injEq] at h
    subst h
    exact Or.inl (isDiag_append (isDiag_append (isDiag_append
      (isDiag_append ⟨" Expected GroupBy node factory (", rfl⟩ GROUPBY_FACTORY)
        "), but got ") _) ".")
  · split at h
    · rw [Option.some.injEq] at h
      subst h
      exact Or.inl ⟨" Model configuration not found or invalid.", rfl⟩
    · split at h
      · rw [Option.some.injEq] at h
        subst h
        exact Or.inl ⟨" Model configuration not found or invalid.", rfl⟩
      · split at h
        · exact absurd h (by simp)
        · split at h
          · rw [Option.some.injEq] at h
            subst h
            exact Or.inl ⟨" Cannot generate SELECT clause. No grouping or aggregation columns specified/successful.", rfl⟩
          · split at h
            · rw [Option.some.injEq] at h
              subst h
              exact Or.inr ⟨_, rfl⟩
            · rw [Option.some.injEq] at h
              subst h
              exact Or.inr ⟨_, rfl⟩

/-- Every Sorter result string is a diagnostic, SQL ending in `;`, or a
degraded warning passthrough. -/
theorem sorterOutputClass (nodeConfig : CNode) (previousNodeName : String)
    (out : String) (h : convertSorterNodeToSQL nodeConfig previousNodeName = some out) :
    IsDiag out ∨ EndsSemi out ∨ IsDegraded out := by
  simp only [convertSorterNodeToSQL] at h
  split at h
  · rw [Option.some.injEq] at h
    subst h
    exact Or.inl (isDiag_append (isDiag_append (isDiag_append
      (isDiag_append ⟨" Expected Sorter node factory (", rfl⟩ SORTER_FACTORY)
        "), but got ") _) ".")
  · split at h
    · rw [Option.some.injEq] at h
      subst h
      exact Or.inl ⟨" Model configuration not found or invalid.", rfl⟩
    · split at h
      · rw [Option.some.injEq] at h
        subst h
        exact Or.inl ⟨" Model configuration not found or invalid.", rfl⟩
      · split at h
        · rw [Option.some.injEq] at h
          subst h
          exact Or.inr (Or.inr (Or.inr (Or.inl ⟨_, rfl⟩)))
        · split at h
          · rw [Option.some.injEq] at h
            subst h
            exact Or.inr (Or.inr (Or.inr (Or.inl ⟨_, rfl⟩)))
          · split at h
            · exact absurd h (by simp)
            · split at h
              · rw [Option.some.injEq] at h
                subst h
                exact Or.inr (Or.inr (Or.inr (Or.inr ⟨_, rfl⟩)))
              · rw [Option.some.injEq] at h
                subst h
                exact Or.inr (Or.inl ⟨_, rfl⟩)

/-- The validation loop only produces `Error:`-prefixed diagnostics. -/
theorem concatValidate_isDiag :
    ∀ (ps : List PredCtx) (i : Nat) (e : String), concatValidate i ps = some e → IsDiag e := by
  intro ps
  induction ps with
  | nil => intro i e h; simp [concatValidate] at h
  | cons p ps ih =>
    intro i e h
    rw [concatValidate] at h
    split at h
    · rw [Option.some.injEq] at h
      subst h
      exact isDiag_append (isDiag_append
        (isDiag_append ⟨" Invalid predecessor context at index ", rfl⟩ (toString i))
          ". Expected \x7b nodeName: string, nodes: string[] \x7d, got: ") _
    · exact ih (i + 1) e h

/-- Every Concatenate result string is a diagnostic or SQL ending in `;`. -/
theorem concatOutputClass (nodeConfig : CNode) (preds : List PredCtx) :
    IsDiag (convertConcatenateNodeToSQL nodeConfig preds) ∨
      EndsSemi (convertConcatenateNodeToSQL nodeConfig preds) := by
  simp only [convertConcatenateNodeToSQL]
  split
  · exact Or.inl (isDiag_append (isDiag_append (isDiag_append
      (isDiag_append ⟨" Expected Concatenate node factory (", rfl⟩ CONCATENATE_FACTORY)
        "), but got ") _) ".")
  · split
    · exact Or.inl (isDiag_append (isDiag_append
        (isDiag_append ⟨" Concatenate node requires at least two predecessors, but found ", rfl⟩
          (toString preds.length)) ". Context: ") _)
    · split
      · rename_i e he
        exact Or.inl (concatValidate_isDiag preds 0 e he)
      · split
        · exact Or.inl ⟨" Intersection of columns resulted in an empty column set.", rfl⟩
        · split
          · exact Or.inl ⟨" No columns determined for the output.", rfl⟩
          · exact Or.inr ⟨_, rfl⟩

/-- C2 counterexample: a Row Filter tree with matching factory whose only
predicate is dropped yields the successful (non-diagnostic) degraded output
`SELECT * FROM "input_table"; -- Warning: No valid filter conditions
generated or applied`, which does not end in `;` — refuting the claim that
the degraded outputs end in `;`. -/
theorem c2_counterexample :
    convertRowFilterNodeToSQL c2DegradedTree "input_table" =
        some ("SELECT * FROM \"input_table\"" ++ rowFilterWarnSuffix) ∧
      getEntryValue c2DegradedTree.entry "factory" = EVal.str ROW_FILTER_FACTORY ∧
      ¬ EndsSemi ("SELECT * FROM \"input_table\"" ++ rowFilterWarnSuffix) := by
  refine ⟨rfl, rfl, fun h => ?_⟩
  have := endsSemi_last h
  exact absurd this (by decide)

/-- C2 (amended): every successful (non-`Error:`) translator output either
ends in `;` or is one of the degraded passthrough outputs of RowFilter /
Sorter, which consist of a query ending `;` followed by a ` -- Warning:`
comment (so the full text ends in the comment, not in `;`). -/
theorem c2_amended :
    (∀ (nodeConfig : CNode) (previousNodeName : String) (out : String),
        convertRowFilterNodeToSQL nodeConfig previousNodeName = some out →
        IsDiag out ∨ EndsSemi out ∨ IsDegraded out) ∧
    (∀ (nodeConfig : CNode) (previousNodeName : String) (out : String),
        convertGroupByNodeToSQL nodeConfig previousNodeName = some out →
        IsDiag out ∨ EndsSemi out) ∧
    (∀ (nodeConfig : CNode) (previousNodeName : String) (out : String),
        convertSorterNodeToSQL nodeConfig previousNodeName = some out →
        IsDiag out ∨ EndsSemi out ∨ IsDegraded out) ∧
    (∀ (nodeConfig : CNode) (preds : List PredCtx),
        IsDiag (convertConcatenateNodeToSQL nodeConfig preds) ∨
          EndsSemi (convertConcatenateNodeToSQL nodeConfig preds)) :=
  ⟨rowFilterOutputClass, groupByOutputClass, sorterOutputClass, concatOutputClass⟩

/-- C2 witness: the amended classification applied to the concrete degraded
Row Filter output. -/
theorem c2_witness :
    IsDiag ("SELECT * FROM \"input_table\"" ++ rowFilterWarnSuffix) ∨
      EndsSemi ("SELECT * FROM \"input_table\"" ++ rowFilterWarnSuffix) ∨
      IsDegraded ("SELECT * FROM \"input_table\"" ++ rowFilterWarnSuffix) :=
  c2_amended.1 c2DegradedTree "input_table" ("SELECT * FROM \"input_table\"" ++ rowFilterWarnSuffix)
    rfl

end KnimeSQL
